import Mathlib

/-!
# SafeFolder native crypto shim: `CryptoInterop.cpp`

A shallow embedding of the two exported functions of
`src/SafeFolderNativeCrypto/CryptoInterop.cpp`, `EncryptFile` and
`DeriveKeyPBKDF2`, and the properties of them that the specification states.

## Modelling conventions

* A character of a C string is its code unit, a `Nat` (`char`: one byte,
  `wchar_t`: one wide code unit).  A string is the list of the code units
  that precede its terminating NUL.
* A pointer argument is an `Option`: `none` is the null pointer, `some v` is a
  pointer to an object whose contents are `v` (for `const char*` and
  `const wchar_t*` the NUL-terminated string `v`, for `unsigned char*` the
  bytes of the buffer).
* `int` arguments are `Int`.  The functions never compute with them, so no
  wrap-around arises.
* Everything a call can read or change besides its arguments is one explicit
  `World`: the characters inserted so far into `std::wcout` and into
  `std::cout`, and the file system.  The buffer behind `outputKey` is passed in
  and handed back in the outcome.
* A stream is the sequence of characters inserted into it.  Both streams are
  taken in their good state; error flags, locale conversion and buffering are
  outside the model, and `flush` leaves the sequence as it is.
* Inserting a null `const charT*` into a stream violates the precondition of
  the inserter (`s` shall not be a null pointer): the behaviour is undefined,
  library implementations differ in what they do then, and the model gives
  such a call no outcome (`none`).  A property of a call is stated of its
  outcomes, together with the fact that every call with a non-null string has
  one; no statement below rests on a call being without outcome.
-/

set_option linter.unusedVariables false

namespace SafeFolder

/-- Code units of a string literal of the source. -/
def lit (s : String) : List Nat := s.toList.map Char.toNat

/-- Contents of a file system: the files that exist, by path, with their bytes. -/
abbrev FileSystem := List (List Nat × List Nat)

/-- State outside the arguments of a call. -/
structure World where
  /-- Wide code units inserted so far into `std::wcout`. -/
  wcout : List Nat
  /-- Bytes inserted so far into `std::cout`. -/
  cout : List Nat
  /-- Files on disk. -/
  files : FileSystem
deriving DecidableEq, Repr

/-- Bytes of the file at `path`, `none` when there is no such file. -/
def readFile (w : World) (path : List Nat) : Option (List Nat) :=
  w.files.lookup path

/-- Stream inserter `operator<<(basic_ostream<charT>&, const charT*)`: appends the
characters of the string.  For the null pointer the inserter has no specified
behaviour; the model gives such an insertion no result. -/
def insertStr (os : List Nat) (s : Option (List Nat)) : Option (List Nat) :=
  match s with
  | none => none
  | some cs => some (os ++ cs)

/-- Member `put` of an output stream: appends one character. -/
def put (os : List Nat) (c : Nat) : List Nat := os ++ [c]

/-- Member `flush` of an output stream: the inserted characters stay as they are. -/
def flush (os : List Nat) : List Nat := os

/-- Manipulator `std::endl`: `put` of the newline character, then `flush`. -/
def endl (os : List Nat) : List Nat := flush (put os 10)

/-- Outcome of a returning call of `EncryptFile`. -/
structure EncryptOutcome where
  /-- Returned `bool`. -/
  ret : Bool
  /-- State after the call. -/
  world : World
deriving DecidableEq, Repr

/-- Outcome of a returning call of `DeriveKeyPBKDF2`. -/
structure DeriveOutcome where
  /-- Returned `bool`. -/
  ret : Bool
  /-- Buffer behind `outputKey` after the call (`none`: null pointer). -/
  outputKey : Option (List Nat)
  /-- State after the call. -/
  world : World
deriving DecidableEq, Repr

/-- Function `EncryptFile` of `CryptoInterop.cpp`:
```
std::wcout << L"Encrypting file: " << inputPath << std::endl;
return true;
```
-/
def EncryptFile (w : World) (inputPath outputPath : Option (List Nat))
    (key : Option (List Nat)) (keySize : Int) : Option EncryptOutcome :=
  match insertStr w.wcout (some (lit "Encrypting file: ")) with
  | none => none
  | some os1 =>
    match insertStr os1 inputPath with
    | none => none
    | some os2 =>
      some { ret := true, world := { w with wcout := endl os2 } }

/-- Function `DeriveKeyPBKDF2` of `CryptoInterop.cpp`:
```
std::cout << "Deriving key for password: " << password << std::endl;
return true;
```
-/
def DeriveKeyPBKDF2 (w : World) (password : Option (List Nat))
    (salt : Option (List Nat)) (saltSize : Int) (iterations : Int)
    (outputKey : Option (List Nat)) (outputKeySize : Int) : Option DeriveOutcome :=
  match insertStr w.cout (some (lit "Deriving key for password: ")) with
  | none => none
  | some os1 =>
    match insertStr os1 password with
    | none => none
    | some os2 =>
      some { ret := true, outputKey := outputKey, world := { w with cout := endl os2 } }

/-- Text that a call appended to a stream: what follows the old contents in the new. -/
def appended (before after : List Nat) : List Nat := after.drop before.length

/-! ## Concrete inputs used in the closed statements -/

/-- Fresh state: nothing written to either stream, an empty disk. -/
def emptyWorld : World := { wcout := [], cout := [], files := [] }

/-- A 16-byte salt. -/
def salt16 : List Nat := List.replicate 16 7

/-- A zeroed 32-byte key buffer. -/
def zeroKey32 : List Nat := List.replicate 32 0

/-- A disk that holds the one file `in.txt` with the given plaintext. -/
def diskWith (plaintext : List Nat) : World :=
  { wcout := [], cout := [], files := [(lit "in.txt", plaintext)] }

/-! ## Basic facts about the embedding -/

theorem appended_append (xs ys : List Nat) : appended xs (xs ++ ys) = ys := by
  simp [appended]

theorem EncryptFile_some (w : World) (ip : List Nat) (op key : Option (List Nat))
    (ks : Int) :
    EncryptFile w (some ip) op key ks
      = some { ret := true,
               world := { w with
                 wcout := w.wcout ++ (lit "Encrypting file: " ++ ip ++ [10]) } } := by
  simp [EncryptFile, insertStr, endl, put, flush]

theorem EncryptFile_none (w : World) (op key : Option (List Nat)) (ks : Int) :
    EncryptFile w none op key ks = none := by
  simp [EncryptFile, insertStr]

theorem DeriveKeyPBKDF2_some (w : World) (pw : List Nat) (salt : Option (List Nat))
    (ss it : Int) (buf : Option (List Nat)) (oks : Int) :
    DeriveKeyPBKDF2 w (some pw) salt ss it buf oks
      = some { ret := true, outputKey := buf,
               world := { w with
                 cout := w.cout ++ (lit "Deriving key for password: " ++ pw ++ [10]) } } := by
  simp [DeriveKeyPBKDF2, insertStr, endl, put, flush]

theorem DeriveKeyPBKDF2_none (w : World) (salt : Option (List Nat)) (ss it : Int)
    (buf : Option (List Nat)) (oks : Int) :
    DeriveKeyPBKDF2 w none salt ss it buf oks = none := by
  simp [DeriveKeyPBKDF2, insertStr]

theorem EncryptFile_ret (w : World) (inputPath outputPath key : Option (List Nat))
    (keySize : Int) (r : EncryptOutcome)
    (h : EncryptFile w inputPath outputPath key keySize = some r) : r.ret = true := by
  unfold EncryptFile at h
  split at h
  · cases h
  · split at h
    · cases h
    · cases h
      rfl

theorem DeriveKeyPBKDF2_ret (w : World) (password salt : Option (List Nat))
    (saltSize iterations : Int) (outputKey : Option (List Nat)) (outputKeySize : Int)
    (r : DeriveOutcome)
    (h : DeriveKeyPBKDF2 w password salt saltSize iterations outputKey outputKeySize
      = some r) : r.ret = true := by
  unfold DeriveKeyPBKDF2 at h
  split at h
  · cases h
  · split at h
    · cases h
    · cases h
      rfl

/-! ## C1: parameter validation in `DeriveKeyPBKDF2` -/

/-- C1, counterexample.  Three calls of `DeriveKeyPBKDF2` with a non-null password,
one with `iterations == 0`, one with `saltSize == 8` (below the 16-byte minimum),
one with `outputKeySize == 0`: each returns `true`, none reports failure. -/
theorem C1_invalid_parameters_accepted :
    (DeriveKeyPBKDF2 emptyWorld (some (lit "pw")) (some salt16) 16 0
        (some zeroKey32) 32).map (fun r => r.ret) = some true
    ∧ (DeriveKeyPBKDF2 emptyWorld (some (lit "pw")) (some (salt16.take 8)) 8 1000
        (some zeroKey32) 32).map (fun r => r.ret) = some true
    ∧ (DeriveKeyPBKDF2 emptyWorld (some (lit "pw")) (some salt16) 16 1000
        (some []) 0).map (fun r => r.ret) = some true := by
  decide

/-- C1, amended.  `DeriveKeyPBKDF2` does not validate its parameters: a call with a
non-null password in which `iterations == 0`, or `saltSize` is below 16, or
`outputKeySize == 0`, returns `true`. -/
theorem C1_invalid_parameters_return_true (w : World) (pw : List Nat)
    (salt : Option (List Nat)) (saltSize iterations : Int)
    (outputKey : Option (List Nat)) (outputKeySize : Int)
    (h : iterations = 0 ∨ saltSize < 16 ∨ outputKeySize = 0) :
    (DeriveKeyPBKDF2 w (some pw) salt saltSize iterations outputKey
        outputKeySize).map (fun r => r.ret) = some true := by
  rw [DeriveKeyPBKDF2_some]
  rfl

/-- C1, witness: the amended statement at `iterations == 0`. -/
theorem C1_invalid_parameters_return_true_witness :
    ((0 : Int) = 0 ∨ (16 : Int) < 16 ∨ (32 : Int) = 0)
    ∧ (DeriveKeyPBKDF2 emptyWorld (some (lit "pw")) (some salt16) 16 0
        (some zeroKey32) 32).map (fun r => r.ret) = some true :=
  ⟨Or.inl rfl,
   C1_invalid_parameters_return_true emptyWorld (lit "pw") (some salt16) 16 0
     (some zeroKey32) 32 (Or.inl rfl)⟩

/-! ## C2: the password on the console -/

/-- C2, counterexample.  Two calls that differ in the password only append different
texts to `std::cout`; the text of the first is the prefix, the password `alpha`
and a newline. -/
theorem C2_console_text_differs_with_password :
    (DeriveKeyPBKDF2 emptyWorld (some (lit "alpha")) (some salt16) 16 1000
        (some zeroKey32) 32).map (fun r => appended emptyWorld.cout r.world.cout)
      ≠ (DeriveKeyPBKDF2 emptyWorld (some (lit "bravo")) (some salt16) 16 1000
        (some zeroKey32) 32).map (fun r => appended emptyWorld.cout r.world.cout)
    ∧ (DeriveKeyPBKDF2 emptyWorld (some (lit "alpha")) (some salt16) 16 1000
        (some zeroKey32) 32).map (fun r => appended emptyWorld.cout r.world.cout)
      = some (lit "Deriving key for password: alpha\n") := by
  decide

/-- C2, amended.  `DeriveKeyPBKDF2` logs the password: for non-null passwords `p1`
and `p2` and otherwise identical arguments, the texts the two calls append to
`std::cout` are the same exactly when `p1 = p2`. -/
theorem C2_console_text_same_iff_password_same (w : World) (p1 p2 : List Nat)
    (salt : Option (List Nat)) (saltSize iterations : Int)
    (outputKey : Option (List Nat)) (outputKeySize : Int) :
    ((DeriveKeyPBKDF2 w (some p1) salt saltSize iterations outputKey
        outputKeySize).map (fun r => appended w.cout r.world.cout)
      = (DeriveKeyPBKDF2 w (some p2) salt saltSize iterations outputKey
        outputKeySize).map (fun r => appended w.cout r.world.cout))
    ↔ p1 = p2 := by
  simp [DeriveKeyPBKDF2_some, appended_append]

/-! ## C3: validation of sizes and pointers at the boundary -/

/-- C4, counterexample.  For the password `pw`, `iterations == 1`,
`outputKeySize == 32` and a zeroed 32-byte buffer there are no two different salts
of at least 16 bytes after which the contents of `outputKey` differ. -/
theorem C4_no_two_salts_give_different_keys :
    ¬ ∃ s1 s2 : List Nat, 16 ≤ s1.length ∧ 16 ≤ s2.length ∧ s1 ≠ s2 ∧
        (DeriveKeyPBKDF2 emptyWorld (some (lit "pw")) (some s1) (s1.length : Int) 1
            (some zeroKey32) 32).map (fun r => r.outputKey)
          ≠ (DeriveKeyPBKDF2 emptyWorld (some (lit "pw")) (some s2) (s2.length : Int) 1
            (some zeroKey32) 32).map (fun r => r.outputKey) := by
  rintro ⟨s1, s2, -, -, -, h⟩
  exact h (by rw [DeriveKeyPBKDF2_some, DeriveKeyPBKDF2_some])

/-- C4, amended.  The contents of `outputKey` after `DeriveKeyPBKDF2` do not depend on
the salt: for the same non-null password, iterations, `outputKeySize` and initial
buffer, after calls with any two salts the buffer holds the same bytes, those it
held before the call. -/
theorem C4_outputKey_independent_of_salt (w : World) (pw : List Nat)
    (salt1 salt2 : Option (List Nat)) (saltSize1 saltSize2 iterations : Int)
    (outputKey : Option (List Nat)) (outputKeySize : Int) :
    (DeriveKeyPBKDF2 w (some pw) salt1 saltSize1 iterations outputKey
        outputKeySize).map (fun r => r.outputKey) = some outputKey
    ∧ (DeriveKeyPBKDF2 w (some pw) salt2 saltSize2 iterations outputKey
        outputKeySize).map (fun r => r.outputKey) = some outputKey := by
  rw [DeriveKeyPBKDF2_some, DeriveKeyPBKDF2_some]
  exact ⟨rfl, rfl⟩

/-! ## C5: determinism of `DeriveKeyPBKDF2` -/

/-- C5.  Key derivation is deterministic: two calls of `DeriveKeyPBKDF2` with identical
arguments and identical initial `outputKey` buffer, made in any two states of the
console and the disk, have the same return value and leave the same bytes in
`outputKey` (and are undefined together). -/
theorem C5_DeriveKeyPBKDF2_deterministic (w1 w2 : World)
    (password salt : Option (List Nat)) (saltSize iterations : Int)
    (outputKey : Option (List Nat)) (outputKeySize : Int) :
    (DeriveKeyPBKDF2 w1 password salt saltSize iterations outputKey
        outputKeySize).map (fun r => (r.ret, r.outputKey))
      = (DeriveKeyPBKDF2 w2 password salt saltSize iterations outputKey
        outputKeySize).map (fun r => (r.ret, r.outputKey)) := by
  cases password with
  | none => rw [DeriveKeyPBKDF2_none, DeriveKeyPBKDF2_none]
  | some pw => simp [DeriveKeyPBKDF2_some]

/-! ## C6: the key and the console -/

/-- C6.  The observable output of `EncryptFile` is independent of the key: for any two
key buffers and key sizes and the same `inputPath` and `outputPath`, the two calls
have the same outcome, so they return the same value and append the same text to
either console stream. -/
theorem C6_EncryptFile_independent_of_key (w : World)
    (inputPath outputPath key1 key2 : Option (List Nat)) (keySize1 keySize2 : Int) :
    EncryptFile w inputPath outputPath key1 keySize1
      = EncryptFile w inputPath outputPath key2 keySize2
    ∧ (EncryptFile w inputPath outputPath key1 keySize1).map
        (fun r => (r.ret, appended w.wcout r.world.wcout, appended w.cout r.world.cout))
      = (EncryptFile w inputPath outputPath key2 keySize2).map
        (fun r => (r.ret, appended w.wcout r.world.wcout, appended w.cout r.world.cout)) := by
  cases inputPath with
  | none => simp [EncryptFile_none]
  | some ip => simp [EncryptFile_some]

/-! ## C7: the return value -/

/-- C7.  Both exported functions return `true` unconditionally: for every
combination of arguments, every outcome of `EncryptFile` and every outcome of
`DeriveKeyPBKDF2` has the return value `true`, whatever the sizes, the iteration
count, the buffers and the other pointers are; and every call with a non-null
`inputPath`, respectively password, has an outcome, so it returns `true`. -/
theorem C7_exports_return_true (w : World)
    (inputPath outputPath key password salt outputKey : Option (List Nat))
    (keySize saltSize iterations outputKeySize : Int) :
    (∀ r, EncryptFile w inputPath outputPath key keySize = some r → r.ret = true)
    ∧ (∀ r, DeriveKeyPBKDF2 w password salt saltSize iterations outputKey
          outputKeySize = some r → r.ret = true)
    ∧ (inputPath ≠ none →
        (EncryptFile w inputPath outputPath key keySize).map (fun r => r.ret)
          = some true)
    ∧ (password ≠ none →
        (DeriveKeyPBKDF2 w password salt saltSize iterations outputKey
          outputKeySize).map (fun r => r.ret) = some true) := by
  refine ⟨EncryptFile_ret w inputPath outputPath key keySize,
    DeriveKeyPBKDF2_ret w password salt saltSize iterations outputKey outputKeySize,
    ?_, ?_⟩
  · intro h
    cases inputPath with
    | none => exact absurd rfl h
    | some ip => rw [EncryptFile_some]; rfl
  · intro h
    cases password with
    | none => exact absurd rfl h
    | some pw => rw [DeriveKeyPBKDF2_some]; rfl

/-! ## C8: nothing but the console is written -/

/-- C8.  The stubs write nothing besides the console.  For every input, an outcome of
`EncryptFile` has the disk of before the call, so every file, those at `inputPath`
and `outputPath` among them, holds what it held, and an outcome of
`DeriveKeyPBKDF2` has the `outputKey` buffer and the disk of before the call.  The
calls with a non-null `inputPath`, respectively password, do have an outcome. -/
theorem C8_stubs_write_only_console (w : World)
    (inputPath outputPath key password salt outputKey : Option (List Nat))
    (keySize saltSize iterations outputKeySize : Int) :
    (∀ r, EncryptFile w inputPath outputPath key keySize = some r →
        r.world.files = w.files ∧ (∀ path, readFile r.world path = readFile w path)
        ∧ r.world.cout = w.cout)
    ∧ (∀ r, DeriveKeyPBKDF2 w password salt saltSize iterations outputKey
          outputKeySize = some r →
        r.outputKey = outputKey ∧ r.world.files = w.files
        ∧ (∀ path, readFile r.world path = readFile w path)
        ∧ r.world.wcout = w.wcout)
    ∧ (inputPath ≠ none →
        (EncryptFile w inputPath outputPath key keySize).isSome = true)
    ∧ (password ≠ none →
        (DeriveKeyPBKDF2 w password salt saltSize iterations outputKey
          outputKeySize).isSome = true) := by
  refine ⟨?_, ?_, ?_, ?_⟩
  · intro r hr
    cases inputPath with
    | none => rw [EncryptFile_none] at hr; cases hr
    | some ip =>
      rw [EncryptFile_some] at hr
      cases hr
      exact ⟨rfl, fun _ => rfl, rfl⟩
  · intro r hr
    cases password with
    | none => rw [DeriveKeyPBKDF2_none] at hr; cases hr
    | some pw =>
      rw [DeriveKeyPBKDF2_some] at hr
      cases hr
      exact ⟨rfl, rfl, fun _ => rfl, rfl⟩
  · intro h
    cases inputPath with
    | none => exact absurd rfl h
    | some ip => rw [EncryptFile_some]; rfl
  · intro h
    cases password with
    | none => exact absurd rfl h
    | some pw => rw [DeriveKeyPBKDF2_some]; rfl

/-! ## C9: round trip -/

/-- C9, counterexample.  `EncryptFile` on a disk whose `in.txt` holds the one byte 65,
asked to write `out.bin`, returns `true` and leaves the disk as it was: `in.txt`
holds the plaintext and there is no `out.bin`.  As the same holds for the empty
plaintext, no decrypt operation, given the key and what is at `out.bin` after the
call, returns the plaintext for both. -/
theorem C9_no_container_no_round_trip :
    (EncryptFile (diskWith [65]) (some (lit "in.txt")) (some (lit "out.bin"))
        (some zeroKey32) 32).map
        (fun r => (r.ret, readFile r.world (lit "in.txt"), readFile r.world (lit "out.bin")))
      = some (true, some [65], none)
    ∧ ¬ ∃ decrypt : List Nat → Option (List Nat) → Option (List Nat),
        ∀ plaintext ∈ [[], [65]],
          (EncryptFile (diskWith plaintext) (some (lit "in.txt")) (some (lit "out.bin"))
              (some zeroKey32) 32).bind
              (fun r => decrypt zeroKey32 (readFile r.world (lit "out.bin")))
            = some plaintext := by
  refine ⟨by decide, ?_⟩
  rintro ⟨decrypt, h⟩
  have h0 := h [] (by simp)
  have h1 := h [65] (by simp)
  have e0 : readFile (diskWith []) (lit "out.bin") = none := by decide
  have e1 : readFile (diskWith [65]) (lit "out.bin") = none := by decide
  rw [EncryptFile_some] at h0 h1
  simp only [Option.bind, readFile] at h0 h1 e0 e1
  rw [e0] at h0
  rw [e1, h0] at h1
  simp at h1

/-- C9, amended.  `EncryptFile` writes no container: after a call with a non-null
`inputPath`, the file at `outputPath` holds what it held before the call (it is
absent if it was absent), whatever the file at `inputPath` holds; two disks that
agree at `outputPath` and differ in the plaintext agree at `outputPath` after the
call. -/
theorem C9_output_file_independent_of_plaintext (w1 w2 : World)
    (inputPath outputPath : List Nat) (key : Option (List Nat)) (keySize : Int)
    (h : readFile w1 outputPath = readFile w2 outputPath) :
    (EncryptFile w1 (some inputPath) (some outputPath) key keySize).map
        (fun r => readFile r.world outputPath) = some (readFile w1 outputPath)
    ∧ (EncryptFile w2 (some inputPath) (some outputPath) key keySize).map
        (fun r => readFile r.world outputPath) = some (readFile w1 outputPath) := by
  rw [EncryptFile_some, EncryptFile_some]
  refine ⟨rfl, ?_⟩
  rw [h]
  rfl

/-- C9, witness: the amended statement for the empty and a one-byte plaintext. -/
theorem C9_output_file_independent_of_plaintext_witness :
    readFile (diskWith []) (lit "out.bin") = readFile (diskWith [65]) (lit "out.bin")
    ∧ (EncryptFile (diskWith []) (some (lit "in.txt")) (some (lit "out.bin"))
        (some zeroKey32) 32).map
        (fun r => readFile r.world (lit "out.bin"))
      = some (readFile (diskWith []) (lit "out.bin"))
    ∧ (EncryptFile (diskWith [65]) (some (lit "in.txt")) (some (lit "out.bin"))
        (some zeroKey32) 32).map
        (fun r => readFile r.world (lit "out.bin"))
      = some (readFile (diskWith []) (lit "out.bin")) :=
  ⟨by decide,
   C9_output_file_independent_of_plaintext (diskWith []) (diskWith [65])
     (lit "in.txt") (lit "out.bin") (some zeroKey32) 32 (by decide)⟩

/-! ## C10: the text on the console -/

/-- C10.  Exact console output of the stubs: for every non-null `inputPath`,
`EncryptFile` appends to `std::wcout` exactly the text `Encrypting file: `, the
`inputPath` and a newline, and changes nothing else; for every non-null password,
`DeriveKeyPBKDF2` appends to `std::cout` exactly the text
`Deriving key for password: `, the password and a newline, and changes nothing
else. -/
theorem C10_console_output_exact (w : World) (inputPath password : List Nat)
    (outputPath key salt outputKey : Option (List Nat))
    (keySize saltSize iterations outputKeySize : Int) :
    EncryptFile w (some inputPath) outputPath key keySize
      = some { ret := true,
               world := { wcout := w.wcout ++ (lit "Encrypting file: " ++ inputPath ++ [10]),
                          cout := w.cout, files := w.files } }
    ∧ (EncryptFile w (some inputPath) outputPath key keySize).map
        (fun r => appended w.wcout r.world.wcout)
      = some (lit "Encrypting file: " ++ inputPath ++ lit "\n")
    ∧ DeriveKeyPBKDF2 w (some password) salt saltSize iterations outputKey outputKeySize
      = some { ret := true, outputKey := outputKey,
               world := { wcout := w.wcout,
                          cout := w.cout ++ (lit "Deriving key for password: " ++ password ++ [10]),
                          files := w.files } }
    ∧ (DeriveKeyPBKDF2 w (some password) salt saltSize iterations outputKey
        outputKeySize).map (fun r => appended w.cout r.world.cout)
      = some (lit "Deriving key for password: " ++ password ++ lit "\n") := by
  refine ⟨?_, ?_, ?_, ?_⟩
  · rw [EncryptFile_some]
  · rw [EncryptFile_some]
    simp only [Option.map, appended_append]
    rfl
  · rw [DeriveKeyPBKDF2_some]
  · rw [DeriveKeyPBKDF2_some]
    simp only [Option.map, appended_append]
    rfl

end SafeFolder
